import Mathlib

/-!
Verification of `nuke_from_orbit/utils/gke_cluster.py` (looker-load-testing).

The file is a thin facade over two Google Cloud clients:
  * a Compute client (`googleapiclient.discovery.build("compute", "v1")`), used through
    `client.globalAddresses().<method>(...).execute()` and
    `client.globalOperations().get(...).execute()`;
  * a GKE cluster-manager client (`container_v1.ClusterManagerClient`), used through
    `client.create_cluster / delete_cluster / get_operation / get_cluster`.

We embed each Python function shallowly.  A remote client is a record of functions from
the request data the Python code builds to `Except Err <response>`: `.ok` models a 2xx
response, `.error` models the client library raising an exception (an HTTP error or any
other exception), which Python propagates by unwinding.  Each embedded function also
returns the list of remote calls it executed (one entry per `.execute()` /
client-method call in the source), so that "exactly one remote request per invocation"
is a provable statement rather than an informal one.

`setup_cluster_auth_file` additionally touches the filesystem: it reads the Jinja2
template `templates/kubeconfig.yaml` (a repository file that is not part of the Python
source), renders it, and writes `rendered/kubeconfig.yaml` in write mode.  The
filesystem is modelled as the contents of exactly these two paths (the only ones the
function touches); Jinja2 rendering of variable placeholders is modelled as
substitution over a parsed template, a list of literal and placeholder pieces, with a
missing variable rendering as the empty string (Jinja2's default `Undefined` behaviour).
-/

namespace GkeFacade

/-- An exception raised by a client library call or by file IO.  `remote` models an
HTTP error carrying the provider status code and message (`RemoteAPIError`); `ioErr`
models an `OSError` from reading or writing a file. -/
inductive Err where
  | remote (code : Nat) (msg : String)
  | ioErr (msg : String)
deriving DecidableEq, Repr

/-! ### Compute (global address) family

Response resources are dicts in Python; we model only the fields the source reads.
A Compute `Operation` resource has a `name` (the job id the source returns from
insert/delete) and a `status` string.  An `Address` resource has an `address` field
(the allocated IP literal). -/

/-- A Compute `Operation` resource, as returned by `globalAddresses().insert/delete`
and `globalOperations().get`.  The source reads `response["name"]` and
`response["status"]`. -/
structure ComputeOperation where
  name : String
  status : String
deriving DecidableEq, Repr

/-- A Compute `Address` resource, as returned by `globalAddresses().get`.  The source
reads `response["address"]`. -/
structure AddressResource where
  name : String
  address : String
  status : String
deriving DecidableEq, Repr

/-- One executed Compute request (`request.execute()` in the source), carrying exactly
the arguments the source passes. -/
inductive ComputeCall where
  | globalAddressesInsert (project : String) (body : List (String × String))
  | globalAddressesDelete (project : String) (address : String)
  | globalAddressesGet (project : String) (address : String)
  | globalOperationsGet (project : String) (operation : String)
deriving DecidableEq, Repr

/-- The Compute client: one function per REST method the source uses.  The insert body
is the dict the source builds, modelled as an association list so that "the body is
exactly `{"name": name}`" is expressible. -/
structure ComputeClient where
  globalAddresses_insert : String → List (String × String) → Except Err ComputeOperation
  globalAddresses_delete : String → String → Except Err ComputeOperation
  globalAddresses_get : String → String → Except Err AddressResource
  globalOperations_get : String → String → Except Err ComputeOperation

/-- `create_global_ip(name, project, client)`: builds `body = {"name": name}`, executes
`globalAddresses().insert(project=project, body=body)`, returns `response["name"]`. -/
def create_global_ip (name project : String) (client : ComputeClient) :
    Except Err String × List ComputeCall :=
  let body := [("name", name)]
  (Except.map ComputeOperation.name (client.globalAddresses_insert project body),
   [ComputeCall.globalAddressesInsert project body])

/-- `delete_global_ip(name, project, client)`: executes
`globalAddresses().delete(project=project, address=name)`, returns `response["name"]`. -/
def delete_global_ip (name project : String) (client : ComputeClient) :
    Except Err String × List ComputeCall :=
  (Except.map ComputeOperation.name (client.globalAddresses_delete project name),
   [ComputeCall.globalAddressesDelete project name])

/-- `compute_task_status(task_name, project, client)`: executes
`globalOperations().get(project=project, operation=task_name)`, returns
`response["status"]`. -/
def compute_task_status (task_name project : String) (client : ComputeClient) :
    Except Err String × List ComputeCall :=
  (Except.map ComputeOperation.status (client.globalOperations_get project task_name),
   [ComputeCall.globalOperationsGet project task_name])

/-- `fetch_ip_address(name, project, client)`: executes
`globalAddresses().get(project=project, address=name)`, returns `response["address"]`. -/
def fetch_ip_address (name project : String) (client : ComputeClient) :
    Except Err String × List ComputeCall :=
  (Except.map AddressResource.address (client.globalAddresses_get project name),
   [ComputeCall.globalAddressesGet project name])

/-! ### GKE (cluster) family

Request types mirror `container_v1.types`; the cluster dict mirrors the literal dict
built in `setup_gke_cluster`, with only the keys the source sets. -/

/-- The `release_channel` sub-dict of the cluster spec. -/
structure ReleaseChannel where
  channel : String
deriving DecidableEq, Repr

/-- The `config` sub-dict of a node pool. -/
structure NodeConfig where
  machine_type : String
  oauth_scopes : List String
deriving DecidableEq, Repr

/-- One entry of the `node_pools` list. -/
structure NodePool where
  name : String
  initial_node_count : Nat
  config : NodeConfig
deriving DecidableEq, Repr

/-- The `cluster` dict passed to `CreateClusterRequest`. -/
structure Cluster where
  name : String
  release_channel : ReleaseChannel
  node_pools : List NodePool
deriving DecidableEq, Repr

/-- `container_v1.types.CreateClusterRequest(parent=..., cluster=...)`. -/
structure CreateClusterRequest where
  parent : String
  cluster : Cluster
deriving DecidableEq, Repr

/-- `container_v1.types.DeleteClusterRequest(name=...)`. -/
structure DeleteClusterRequest where
  name : String
deriving DecidableEq, Repr

/-- `container_v1.types.GetOperationRequest(name=...)`. -/
structure GetOperationRequest where
  name : String
deriving DecidableEq, Repr

/-- `container_v1.types.GetClusterRequest(name=...)`. -/
structure GetClusterRequest where
  name : String
deriving DecidableEq, Repr

/-- The status enum value of a GKE operation; the source docstring points callers at
its `.name` string (for example `DONE`). -/
structure GkeOpStatus where
  name : String
deriving DecidableEq, Repr

/-- A GKE long-running `Operation` resource, modelled with the fields the source or
its docstrings use: `name` (the job id returned by create/delete), `status` (whose
`.name` signals completion) and `detail` (diagnostic text). -/
structure GkeOperation where
  name : String
  status : GkeOpStatus
  detail : String
deriving DecidableEq, Repr

/-- The `master_auth` block of a fetched cluster descriptor. -/
structure MasterAuth where
  cluster_ca_certificate : String
deriving DecidableEq, Repr

/-- A fetched cluster descriptor; the source reads
`cluster.master_auth.cluster_ca_certificate` and `cluster.endpoint`. -/
structure ClusterDescriptor where
  master_auth : MasterAuth
  endpoint : String
deriving DecidableEq, Repr

/-- One executed GKE client call, carrying the request the source built. -/
inductive GkeCall where
  | createCluster (req : CreateClusterRequest)
  | deleteCluster (req : DeleteClusterRequest)
  | getOperation (req : GetOperationRequest)
  | getCluster (req : GetClusterRequest)
deriving DecidableEq, Repr

/-- The GKE cluster-manager client: one function per method the source uses. -/
structure GkeClient where
  create_cluster : CreateClusterRequest → Except Err GkeOperation
  delete_cluster : DeleteClusterRequest → Except Err GkeOperation
  get_operation : GetOperationRequest → Except Err GkeOperation
  get_cluster : GetClusterRequest → Except Err ClusterDescriptor

/-- `setup_gke_cluster(name, project, zone, node_count, machine_type, client)`: builds
`parent = f"projects/{project}/locations/{zone}"` and the literal cluster dict (release
channel `REGULAR`, a single node pool named `load-test-pool` with the given
`initial_node_count`, `machine_type` and the fixed `cloud-platform` OAuth scope),
submits a `CreateClusterRequest`, returns `task.name`. -/
def setup_gke_cluster (name project zone : String) (node_count : Nat)
    (machine_type : String) (client : GkeClient) :
    Except Err String × List GkeCall :=
  let parent := s!"projects/{project}/locations/{zone}"
  let cluster : Cluster :=
    { name := name
      release_channel := { channel := "REGULAR" }
      node_pools :=
        [{ name := "load-test-pool"
           initial_node_count := node_count
           config :=
             { machine_type := machine_type
               oauth_scopes := ["https://www.googleapis.com/auth/cloud-platform"] } }] }
  let request : CreateClusterRequest := { parent := parent, cluster := cluster }
  (Except.map GkeOperation.name (client.create_cluster request),
   [GkeCall.createCluster request])

/-- `delete_gke_cluster(name, project, zone, client)`: builds
`cluster_name = f"projects/{project}/locations/{zone}/clusters/{name}"`, submits a
`DeleteClusterRequest`, returns `task.name`. -/
def delete_gke_cluster (name project zone : String) (client : GkeClient) :
    Except Err String × List GkeCall :=
  let cluster_name := s!"projects/{project}/locations/{zone}/clusters/{name}"
  let request : DeleteClusterRequest := { name := cluster_name }
  (Except.map GkeOperation.name (client.delete_cluster request),
   [GkeCall.deleteCluster request])

/-- `gke_task_status(name, project, zone, client)`: builds
`task_name = f"projects/{project}/locations/{zone}/operations/{name}"`, submits a
`GetOperationRequest`, and returns the fetched operation object unchanged. -/
def gke_task_status (name project zone : String) (client : GkeClient) :
    Except Err GkeOperation × List GkeCall :=
  let task_name := s!"projects/{project}/locations/{zone}/operations/{name}"
  let request : GetOperationRequest := { name := task_name }
  (client.get_operation request, [GkeCall.getOperation request])

/-! ### Kubeconfig rendering -/

/-- One piece of a parsed Jinja2 template: a literal run of text or a variable
placeholder. -/
inductive Piece where
  | lit (s : String)
  | var (v : String)
deriving DecidableEq, Repr

/-- A parsed template is a sequence of pieces. -/
abbrev Tmpl := List Piece

/-- Dict lookup used for rendering; a variable absent from the dict renders as the
empty string (Jinja2's default `Undefined`). -/
def lookupVal (vals : List (String × String)) (v : String) : String :=
  match vals.lookup v with
  | some s => s
  | none => ""

/-- `jinja2.Template(...).render(**vals)`: substitute each placeholder by its value and
concatenate. -/
def renderTmpl (tpl : Tmpl) (vals : List (String × String)) : String :=
  match tpl with
  | [] => ""
  | Piece.lit s :: rest => s ++ renderTmpl rest vals
  | Piece.var v :: rest => lookupVal vals v ++ renderTmpl rest vals

/-- `Path(__file__).parent` of `gke_cluster.py`: its directory inside the repository,
as path components. -/
def script_path : List String := ["nuke_from_orbit", "utils"]

/-- `script_path.joinpath("templates", "kubeconfig.yaml")`. -/
def kubeconfig_template_path : List String := script_path ++ ["templates", "kubeconfig.yaml"]

/-- `script_path.joinpath("rendered", "kubeconfig.yaml")`; also the value
`kubeconfig_rendered.resolve()` returned on success (`resolve` maps the path to its
absolute form, which denotes the same file; we keep repository-rooted components). -/
def kubeconfig_rendered_path : List String := script_path ++ ["rendered", "kubeconfig.yaml"]

/-- The filesystem as far as `setup_cluster_auth_file` touches it: the contents of
`templates/kubeconfig.yaml` (kept parsed, `none` when the file is missing or
unreadable) and the contents of `rendered/kubeconfig.yaml` (`none` when absent). -/
structure FS where
  tmpl : Option Tmpl
  out : Option String
deriving DecidableEq, Repr

/-- The `vals` dict built in `setup_cluster_auth_file`, in source order. -/
def authVals (name project zone ca_cert endpoint : String) : List (String × String) :=
  [("name", name), ("project", project), ("zone", zone),
   ("ca_cert", ca_cert), ("endpoint", endpoint)]

/-- `setup_cluster_auth_file(name, project, zone, client)`: fetches the cluster
descriptor at `projects/{project}/locations/{zone}/clusters/{name}`, extracts
`ca_cert` and `endpoint`, builds the `vals` dict, reads the template, renders it, then
opens `rendered/kubeconfig.yaml` in mode `"w"` (truncating any prior contents), writes
the rendered text and returns the resolved output path.  Any client or IO exception
propagates, leaving the output file untouched: the fetch, the template read and the
render all precede the `open(..., "w")` in the source. -/
def setup_cluster_auth_file (name project zone : String) (client : GkeClient)
    (fs : FS) : Except Err (List String) × FS :=
  let cluster_name := s!"projects/{project}/locations/{zone}/clusters/{name}"
  match client.get_cluster { name := cluster_name } with
  | Except.error e => (Except.error e, fs)
  | Except.ok cluster =>
    let ca_cert := cluster.master_auth.cluster_ca_certificate
    let endpoint := cluster.endpoint
    let vals := authVals name project zone ca_cert endpoint
    match fs.tmpl with
    | none => (Except.error (Err.ioErr "No such file or directory"), fs)
    | some template =>
      let rendered := renderTmpl template vals
      (Except.ok kubeconfig_rendered_path, { fs with out := some rendered })

/-- Modelled from the spec: the repository file `templates/kubeconfig.yaml` is not
under `src/`; per the spec it is a kubeconfig template containing the placeholders
`name`, `project`, `zone`, `ca_cert` and `endpoint`. -/
def kubeconfig_template : Tmpl :=
  [Piece.lit "apiVersion: v1\nkind: Config\nclusters:\n- name: ",
   Piece.var "name",
   Piece.lit "\n  cluster:\n    certificate-authority-data: ",
   Piece.var "ca_cert",
   Piece.lit "\n    server: https://",
   Piece.var "endpoint",
   Piece.lit "\n# project: ",
   Piece.var "project",
   Piece.lit "\n# zone: ",
   Piece.var "zone",
   Piece.lit "\n"]

/-! ### Helper lemmas and sample clients (shared, not claim theorems) -/

/-- Rendering a template that contains the placeholder `v` produces a string in which
the looked-up value of `v` occurs verbatim as a contiguous substring. -/
theorem renderTmpl_contains (tpl : Tmpl) (vals : List (String × String)) (v : String)
    (h : Piece.var v ∈ tpl) :
    ∃ a b, renderTmpl tpl vals = a ++ lookupVal vals v ++ b := by
  induction tpl with
  | nil => exact absurd h (List.not_mem_nil _)
  | cons p rest ih =>
    rcases List.mem_cons.mp h with hp | hm
    · cases hp
      exact ⟨"", renderTmpl rest vals, by rw [String.empty_append]; rfl⟩
    · obtain ⟨a, b, hab⟩ := ih hm
      cases p with
      | lit s =>
        exact ⟨s ++ a, b, by
          show s ++ renderTmpl rest vals = s ++ a ++ lookupVal vals v ++ b
          rw [hab]; simp [String.append_assoc]⟩
      | var w =>
        exact ⟨lookupVal vals w ++ a, b, by
          show lookupVal vals w ++ renderTmpl rest vals =
            lookupVal vals w ++ a ++ lookupVal vals v ++ b
          rw [hab]; simp [String.append_assoc]⟩

/-- A sample Compute client whose every method succeeds with fixed responses. -/
def sampleComputeOk : ComputeClient :=
  { globalAddresses_insert := fun _ _ => Except.ok { name := "op-ins", status := "PENDING" }
    globalAddresses_delete := fun _ _ => Except.ok { name := "op-del", status := "PENDING" }
    globalAddresses_get := fun _ _ =>
      Except.ok { name := "ip1", address := "203.0.113.7", status := "RESERVED" }
    globalOperations_get := fun _ _ => Except.ok { name := "op-ins", status := "DONE" } }

/-- A Compute client whose every method raises the given exception. -/
def failingCompute (e : Err) : ComputeClient :=
  { globalAddresses_insert := fun _ _ => Except.error e
    globalAddresses_delete := fun _ _ => Except.error e
    globalAddresses_get := fun _ _ => Except.error e
    globalOperations_get := fun _ _ => Except.error e }

/-- A sample cluster descriptor used in witnesses. -/
def sampleCluster : ClusterDescriptor :=
  { master_auth := { cluster_ca_certificate := "CACERTDATA==" }, endpoint := "198.51.100.9" }

/-- A sample GKE client whose every method succeeds with fixed responses. -/
def sampleGkeOk : GkeClient :=
  { create_cluster := fun _ =>
      Except.ok { name := "gke-op-1", status := { name := "RUNNING" }, detail := "creating" }
    delete_cluster := fun _ =>
      Except.ok { name := "gke-op-2", status := { name := "RUNNING" }, detail := "deleting" }
    get_operation := fun _ =>
      Except.ok { name := "gke-op-1", status := { name := "DONE" }, detail := "finished" }
    get_cluster := fun _ => Except.ok sampleCluster }

/-- A GKE client whose every method raises the given exception. -/
def failingGke (e : Err) : GkeClient :=
  { create_cluster := fun _ => Except.error e
    delete_cluster := fun _ => Except.error e
    get_operation := fun _ => Except.error e
    get_cluster := fun _ => Except.error e }

/-! ### Claim theorems -/

/-- C1: `setup_gke_cluster` submits one `CreateClusterRequest` whose parent is
`projects/{project}/locations/{zone}` and whose cluster has release channel `REGULAR`
and a `node_pools` list containing exactly one entry named `load-test-pool` with
`initial_node_count` the given node count, `config.machine_type` the given machine
type, and OAuth scope list exactly `["https://www.googleapis.com/auth/cloud-platform"]`;
it returns the submitted operation's `name` field as the operation handle. -/
theorem setup_gke_cluster_builds_fixed_request (name project zone machine_type : String)
    (node_count : Nat) (client : GkeClient) :
    setup_gke_cluster name project zone node_count machine_type client =
      (fun req => (Except.map GkeOperation.name (client.create_cluster req),
                   [GkeCall.createCluster req]))
        { parent := s!"projects/{project}/locations/{zone}"
          cluster :=
            { name := name
              release_channel := { channel := "REGULAR" }
              node_pools :=
                [{ name := "load-test-pool"
                   initial_node_count := node_count
                   config :=
                     { machine_type := machine_type
                       oauth_scopes := ["https://www.googleapis.com/auth/cloud-platform"] } }] } } :=
  rfl

/-- C3: `compute_task_status` performs exactly one remote status read and returns the
response's `status` field verbatim (never coerced); when the provider honours its
contract and that field is one of `PENDING`, `RUNNING`, `DONE`, the returned string is
one of those three literals. -/
theorem compute_task_status_single_read (task_name project : String)
    (client : ComputeClient) :
    (compute_task_status task_name project client).2 =
        [ComputeCall.globalOperationsGet project task_name]
      ∧ (∀ resp : ComputeOperation,
          client.globalOperations_get project task_name = Except.ok resp →
          (compute_task_status task_name project client).1 = Except.ok resp.status)
      ∧ (∀ resp : ComputeOperation,
          client.globalOperations_get project task_name = Except.ok resp →
          (resp.status = "PENDING" ∨ resp.status = "RUNNING" ∨ resp.status = "DONE") →
          ∃ s, (compute_task_status task_name project client).1 = Except.ok s ∧
            (s = "PENDING" ∨ s = "RUNNING" ∨ s = "DONE")) := by
  refine ⟨rfl, ?_, ?_⟩
  · intro resp h
    simp [compute_task_status, Except.map, h]
  · intro resp h hmem
    exact ⟨resp.status, by simp [compute_task_status, Except.map, h], hmem⟩

/-- Witness for C3: on a client answering `DONE`, the call returns `DONE`, one of the
three contract values. -/
theorem compute_task_status_single_read_witness :
    (compute_task_status "op-ins" "proj" sampleComputeOk).1 = Except.ok "DONE" ∧
    ∃ s, (compute_task_status "op-ins" "proj" sampleComputeOk).1 = Except.ok s ∧
      (s = "PENDING" ∨ s = "RUNNING" ∨ s = "DONE") :=
  ⟨(compute_task_status_single_read "op-ins" "proj" sampleComputeOk).2.1
      { name := "op-ins", status := "DONE" } rfl,
   (compute_task_status_single_read "op-ins" "proj" sampleComputeOk).2.2
      { name := "op-ins", status := "DONE" } rfl (Or.inr (Or.inr rfl))⟩

/-- C4: `delete_gke_cluster` addresses its single deletion request at exactly
`projects/{project}/locations/{zone}/clusters/{name}` and returns the resulting
operation's `name` field as the operation handle. -/
theorem delete_gke_cluster_exact_path (name project zone : String) (client : GkeClient) :
    delete_gke_cluster name project zone client =
      (Except.map GkeOperation.name (client.delete_cluster
         { name := s!"projects/{project}/locations/{zone}/clusters/{name}" }),
       [GkeCall.deleteCluster
         { name := s!"projects/{project}/locations/{zone}/clusters/{name}" }]) :=
  rfl

/-- C6: `gke_task_status` reads the long-running-operation resource at exactly
`projects/{project}/locations/{zone}/operations/{operationId}` and returns the fetched
operation object unchanged, so its `name` and `detail` string fields (and its status)
reach the caller with no numeric or enum normalization. -/
theorem gke_task_status_reads_operation (name project zone : String) (client : GkeClient) :
    gke_task_status name project zone client =
      (client.get_operation
         { name := s!"projects/{project}/locations/{zone}/operations/{name}" },
       [GkeCall.getOperation
         { name := s!"projects/{project}/locations/{zone}/operations/{name}" }]) :=
  rfl

/-- C7: `create_global_ip` issues exactly one global-address insert under the given
project with body exactly `{"name": name}`, and returns the response's `name` field
(the opaque operation handle); a client exception (name in use, quota) propagates via
the `Except.map`. -/
theorem create_global_ip_single_insert (name project : String) (client : ComputeClient) :
    create_global_ip name project client =
      (Except.map ComputeOperation.name
         (client.globalAddresses_insert project [("name", name)]),
       [ComputeCall.globalAddressesInsert project [("name", name)]]) :=
  rfl

/-- Looking up `ca_cert` in the `vals` dict yields the certificate verbatim. -/
theorem lookupVal_authVals_ca_cert (name project zone ca ep : String) :
    lookupVal (authVals name project zone ca ep) "ca_cert" = ca := rfl

/-- Looking up `endpoint` in the `vals` dict yields the endpoint verbatim. -/
theorem lookupVal_authVals_endpoint (name project zone ca ep : String) :
    lookupVal (authVals name project zone ca ep) "endpoint" = ep := rfl

/-- C8: on a provisioned address (the remote get succeeds), `fetch_ip_address` returns
the descriptor's `address` field; when the remote get raises (the not-ready case is a
remote 4xx), the same exception propagates. -/
theorem fetch_ip_address_reads_address (name project : String) (client : ComputeClient) :
    (∀ addr : AddressResource,
        client.globalAddresses_get project name = Except.ok addr →
        (fetch_ip_address name project client).1 = Except.ok addr.address)
  ∧ (∀ e : Err, client.globalAddresses_get project name = Except.error e →
        (fetch_ip_address name project client).1 = Except.error e) := by
  constructor
  · intro addr h
    simp [fetch_ip_address, Except.map, h]
  · intro e h
    simp [fetch_ip_address, Except.map, h]

/-- Witness for C8: a provisioned sample client yields the IP literal; a 4xx-raising
client propagates the 4xx unchanged. -/
theorem fetch_ip_address_reads_address_witness :
    (fetch_ip_address "ip1" "proj" sampleComputeOk).1 = Except.ok "203.0.113.7" ∧
    (fetch_ip_address "ip1" "proj" (failingCompute (Err.remote 400 "not ready"))).1 =
      Except.error (Err.remote 400 "not ready") :=
  ⟨(fetch_ip_address_reads_address "ip1" "proj" sampleComputeOk).1
      { name := "ip1", address := "203.0.113.7", status := "RESERVED" } rfl,
   (fetch_ip_address_reads_address "ip1" "proj"
      (failingCompute (Err.remote 400 "not ready"))).2 (Err.remote 400 "not ready") rfl⟩

/-- C5: every facade function propagates the exception raised by the underlying client
call unchanged: when the one remote call a function executes raises `e`, the function's
result is exactly `Except.error e` — no recovery, no retry, no suppression, no
translation into a different error (and `setup_cluster_auth_file` also leaves the
filesystem untouched). -/
theorem error_propagation_unchanged (e : Err) :
    (∀ name project client,
        client.globalAddresses_insert project [("name", name)] = Except.error e →
        (create_global_ip name project client).1 = Except.error e)
  ∧ (∀ name project client,
        client.globalAddresses_delete project name = Except.error e →
        (delete_global_ip name project client).1 = Except.error e)
  ∧ (∀ task_name project client,
        client.globalOperations_get project task_name = Except.error e →
        (compute_task_status task_name project client).1 = Except.error e)
  ∧ (∀ name project client,
        client.globalAddresses_get project name = Except.error e →
        (fetch_ip_address name project client).1 = Except.error e)
  ∧ (∀ name project zone machine_type (node_count : Nat) (client : GkeClient),
        client.create_cluster
          { parent := s!"projects/{project}/locations/{zone}"
            cluster :=
              { name := name
                release_channel := { channel := "REGULAR" }
                node_pools :=
                  [{ name := "load-test-pool"
                     initial_node_count := node_count
                     config :=
                       { machine_type := machine_type
                         oauth_scopes :=
                           ["https://www.googleapis.com/auth/cloud-platform"] } }] } } =
          Except.error e →
        (setup_gke_cluster name project zone node_count machine_type client).1 =
          Except.error e)
  ∧ (∀ name project zone (client : GkeClient),
        client.delete_cluster
          { name := s!"projects/{project}/locations/{zone}/clusters/{name}" } =
          Except.error e →
        (delete_gke_cluster name project zone client).1 = Except.error e)
  ∧ (∀ name project zone (client : GkeClient),
        client.get_operation
          { name := s!"projects/{project}/locations/{zone}/operations/{name}" } =
          Except.error e →
        (gke_task_status name project zone client).1 = Except.error e)
  ∧ (∀ name project zone (client : GkeClient) (fs : FS),
        client.get_cluster
          { name := s!"projects/{project}/locations/{zone}/clusters/{name}" } =
          Except.error e →
        setup_cluster_auth_file name project zone client fs = (Except.error e, fs)) := by
  refine ⟨?_, ?_, ?_, ?_, ?_, ?_, ?_, ?_⟩
  · intro name project client h
    simp [create_global_ip, Except.map, h]
  · intro name project client h
    simp [delete_global_ip, Except.map, h]
  · intro task_name project client h
    simp [compute_task_status, Except.map, h]
  · intro name project client h
    simp [fetch_ip_address, Except.map, h]
  · intro name project zone machine_type node_count client h
    simp [setup_gke_cluster, Except.map, h]
  · intro name project zone client h
    simp [delete_gke_cluster, Except.map, h]
  · intro name project zone client h
    simp [gke_task_status, h]
  · intro name project zone client fs h
    simp [setup_cluster_auth_file, h]

/-- Witness for C5: with clients raising a fixed 500 error, each of the eight facade
functions returns exactly that error. -/
theorem error_propagation_unchanged_witness :
    (create_global_ip "ip1" "proj" (failingCompute (Err.remote 500 "backend"))).1 =
        Except.error (Err.remote 500 "backend")
  ∧ (delete_global_ip "ip1" "proj" (failingCompute (Err.remote 500 "backend"))).1 =
        Except.error (Err.remote 500 "backend")
  ∧ (compute_task_status "op1" "proj" (failingCompute (Err.remote 500 "backend"))).1 =
        Except.error (Err.remote 500 "backend")
  ∧ (fetch_ip_address "ip1" "proj" (failingCompute (Err.remote 500 "backend"))).1 =
        Except.error (Err.remote 500 "backend")
  ∧ (setup_gke_cluster "lt" "proj" "us-central1-a" 3 "e2-standard-4"
        (failingGke (Err.remote 500 "backend"))).1 =
        Except.error (Err.remote 500 "backend")
  ∧ (delete_gke_cluster "lt" "proj" "us-central1-a"
        (failingGke (Err.remote 500 "backend"))).1 =
        Except.error (Err.remote 500 "backend")
  ∧ (gke_task_status "op1" "proj" "us-central1-a"
        (failingGke (Err.remote 500 "backend"))).1 =
        Except.error (Err.remote 500 "backend")
  ∧ setup_cluster_auth_file "lt" "proj" "us-central1-a"
        (failingGke (Err.remote 500 "backend"))
        { tmpl := some kubeconfig_template, out := some "old" } =
        (Except.error (Err.remote 500 "backend"),
         { tmpl := some kubeconfig_template, out := some "old" }) := by
  have H := error_propagation_unchanged (Err.remote 500 "backend")
  exact ⟨H.1 "ip1" "proj" _ rfl,
         H.2.1 "ip1" "proj" _ rfl,
         H.2.2.1 "op1" "proj" _ rfl,
         H.2.2.2.1 "ip1" "proj" _ rfl,
         H.2.2.2.2.1 "lt" "proj" "us-central1-a" "e2-standard-4" 3 _ rfl,
         H.2.2.2.2.2.1 "lt" "proj" "us-central1-a" _ rfl,
         H.2.2.2.2.2.2.1 "op1" "proj" "us-central1-a" _ rfl,
         H.2.2.2.2.2.2.2 "lt" "proj" "us-central1-a" _ _ rfl⟩

/-- C2: when the cluster fetch succeeds and the template file is readable and contains
the `ca_cert` and `endpoint` placeholders, `setup_cluster_auth_file` writes the
rendered template to the fixed path `rendered/kubeconfig.yaml` beside the `templates`
directory, returns that path, and the written contents contain the fetched
`master_auth.cluster_ca_certificate` and `endpoint` values verbatim. -/
theorem setup_cluster_auth_file_renders_verbatim (name project zone : String)
    (client : GkeClient) (fs : FS) (cluster : ClusterDescriptor) (tpl : Tmpl)
    (hc : client.get_cluster
        { name := s!"projects/{project}/locations/{zone}/clusters/{name}" } =
        Except.ok cluster)
    (ht : fs.tmpl = some tpl)
    (hca : Piece.var "ca_cert" ∈ tpl) (hep : Piece.var "endpoint" ∈ tpl) :
    kubeconfig_rendered_path = script_path ++ ["rendered", "kubeconfig.yaml"]
  ∧ setup_cluster_auth_file name project zone client fs =
      (Except.ok kubeconfig_rendered_path,
       { tmpl := fs.tmpl
         out := some (renderTmpl tpl (authVals name project zone
           cluster.master_auth.cluster_ca_certificate cluster.endpoint)) })
  ∧ (∃ a b, renderTmpl tpl (authVals name project zone
        cluster.master_auth.cluster_ca_certificate cluster.endpoint) =
        a ++ cluster.master_auth.cluster_ca_certificate ++ b)
  ∧ (∃ c d, renderTmpl tpl (authVals name project zone
        cluster.master_auth.cluster_ca_certificate cluster.endpoint) =
        c ++ cluster.endpoint ++ d) := by
  refine ⟨rfl, ?_, ?_, ?_⟩
  · simp [setup_cluster_auth_file, hc, ht]
  · have h := renderTmpl_contains tpl (authVals name project zone
      cluster.master_auth.cluster_ca_certificate cluster.endpoint) "ca_cert" hca
    rwa [lookupVal_authVals_ca_cert] at h
  · have h := renderTmpl_contains tpl (authVals name project zone
      cluster.master_auth.cluster_ca_certificate cluster.endpoint) "endpoint" hep
    rwa [lookupVal_authVals_endpoint] at h

/-- Witness for C2: with the sample client and the spec-modelled template, the render
succeeds and the output embeds the sample certificate and endpoint verbatim. -/
theorem setup_cluster_auth_file_renders_verbatim_witness :
    kubeconfig_rendered_path = script_path ++ ["rendered", "kubeconfig.yaml"]
  ∧ setup_cluster_auth_file "lt" "proj" "us-central1-a" sampleGkeOk
      { tmpl := some kubeconfig_template, out := none } =
      (Except.ok kubeconfig_rendered_path,
       { tmpl := some kubeconfig_template
         out := some (renderTmpl kubeconfig_template (authVals "lt" "proj" "us-central1-a"
           sampleCluster.master_auth.cluster_ca_certificate sampleCluster.endpoint)) })
  ∧ (∃ a b, renderTmpl kubeconfig_template (authVals "lt" "proj" "us-central1-a"
        sampleCluster.master_auth.cluster_ca_certificate sampleCluster.endpoint) =
        a ++ sampleCluster.master_auth.cluster_ca_certificate ++ b)
  ∧ (∃ c d, renderTmpl kubeconfig_template (authVals "lt" "proj" "us-central1-a"
        sampleCluster.master_auth.cluster_ca_certificate sampleCluster.endpoint) =
        c ++ sampleCluster.endpoint ++ d) :=
  setup_cluster_auth_file_renders_verbatim "lt" "proj" "us-central1-a" sampleGkeOk
    { tmpl := some kubeconfig_template, out := none } sampleCluster kubeconfig_template
    rfl rfl (by decide) (by decide)

/-- C9: the output file is opened in write mode, so the result is independent of any
prior contents of `rendered/kubeconfig.yaml`: two calls differing only in the prior
output contents agree, the final output is exactly the freshly rendered text, and
repeating the call on the resulting state reproduces the same result and state. -/
theorem setup_cluster_auth_file_overwrites (name project zone : String)
    (client : GkeClient) (tpl : Tmpl) (out1 out2 : Option String)
    (cluster : ClusterDescriptor)
    (hc : client.get_cluster
        { name := s!"projects/{project}/locations/{zone}/clusters/{name}" } =
        Except.ok cluster) :
    setup_cluster_auth_file name project zone client { tmpl := some tpl, out := out1 } =
      setup_cluster_auth_file name project zone client { tmpl := some tpl, out := out2 }
  ∧ ((setup_cluster_auth_file name project zone client
        { tmpl := some tpl, out := out1 }).2).out =
      some (renderTmpl tpl (authVals name project zone
        cluster.master_auth.cluster_ca_certificate cluster.endpoint))
  ∧ setup_cluster_auth_file name project zone client
      (setup_cluster_auth_file name project zone client
        { tmpl := some tpl, out := out1 }).2 =
      setup_cluster_auth_file name project zone client { tmpl := some tpl, out := out1 } := by
  refine ⟨?_, ?_, ?_⟩
  · simp [setup_cluster_auth_file, hc]
  · simp [setup_cluster_auth_file, hc]
  · simp [setup_cluster_auth_file, hc]

/-- Witness for C9: concrete prior contents `some "old"` versus `none` give identical
results, and a repeated call is a fixed point. -/
theorem setup_cluster_auth_file_overwrites_witness :
    setup_cluster_auth_file "lt" "proj" "us-central1-a" sampleGkeOk
        { tmpl := some kubeconfig_template, out := some "old" } =
      setup_cluster_auth_file "lt" "proj" "us-central1-a" sampleGkeOk
        { tmpl := some kubeconfig_template, out := none }
  ∧ ((setup_cluster_auth_file "lt" "proj" "us-central1-a" sampleGkeOk
        { tmpl := some kubeconfig_template, out := some "old" }).2).out =
      some (renderTmpl kubeconfig_template (authVals "lt" "proj" "us-central1-a"
        sampleCluster.master_auth.cluster_ca_certificate sampleCluster.endpoint))
  ∧ setup_cluster_auth_file "lt" "proj" "us-central1-a" sampleGkeOk
      (setup_cluster_auth_file "lt" "proj" "us-central1-a" sampleGkeOk
        { tmpl := some kubeconfig_template, out := some "old" }).2 =
      setup_cluster_auth_file "lt" "proj" "us-central1-a" sampleGkeOk
        { tmpl := some kubeconfig_template, out := some "old" } :=
  setup_cluster_auth_file_overwrites "lt" "proj" "us-central1-a" sampleGkeOk
    kubeconfig_template (some "old") none sampleCluster rfl

/-- C10: the cluster fetch and the template read precede the write, so on either
failure — the client raising, or the template file missing — `setup_cluster_auth_file`
raises and returns the filesystem unchanged; in particular the previous
`rendered/kubeconfig.yaml` contents survive. -/
theorem setup_cluster_auth_file_error_leaves_output (name project zone : String)
    (client : GkeClient) (fs : FS) :
    (∀ e : Err,
        client.get_cluster
          { name := s!"projects/{project}/locations/{zone}/clusters/{name}" } =
          Except.error e →
        setup_cluster_auth_file name project zone client fs = (Except.error e, fs))
  ∧ (∀ cluster : ClusterDescriptor,
        client.get_cluster
          { name := s!"projects/{project}/locations/{zone}/clusters/{name}" } =
          Except.ok cluster →
        fs.tmpl = none →
        setup_cluster_auth_file name project zone client fs =
          (Except.error (Err.ioErr "No such file or directory"), fs)) := by
  constructor
  · intro e h
    simp [setup_cluster_auth_file, h]
  · intro cluster h ht
    simp [setup_cluster_auth_file, h, ht]

/-- Witness for C10: a 404-raising client and a missing template file each leave the
prior output contents `some "old"` in place. -/
theorem setup_cluster_auth_file_error_leaves_output_witness :
    setup_cluster_auth_file "lt" "proj" "us-central1-a"
        (failingGke (Err.remote 404 "not found"))
        { tmpl := some kubeconfig_template, out := some "old" } =
      (Except.error (Err.remote 404 "not found"),
       { tmpl := some kubeconfig_template, out := some "old" })
  ∧ setup_cluster_auth_file "lt" "proj" "us-central1-a" sampleGkeOk
        { tmpl := none, out := some "old" } =
      (Except.error (Err.ioErr "No such file or directory"),
       { tmpl := none, out := some "old" }) :=
  ⟨(setup_cluster_auth_file_error_leaves_output "lt" "proj" "us-central1-a"
      (failingGke (Err.remote 404 "not found"))
      { tmpl := some kubeconfig_template, out := some "old" }).1
      (Err.remote 404 "not found") rfl,
   (setup_cluster_auth_file_error_leaves_output "lt" "proj" "us-central1-a" sampleGkeOk
      { tmpl := none, out := some "old" }).2 sampleCluster rfl rfl⟩

end GkeFacade
